import Mathlib

/-!
Shallow embedding of the internal window-management core of
`src/SDUX_DE_ALPHA_1.0.py` (PyShell): the floating-window geometry and
interaction state machine (`InternalWindow.mousePressEvent`,
`mouseMoveEvent`, `on_max`), the workspace manager
(`WorkspaceManager.add_window`, `switch_to`), the focus/Z-order ring
(`PyShellApp.cycle_windows`), overlay layout
(`PyShellApp.reposition_overlays`) and app launching
(`PyShellApp.launch_app`).  Coordinates are modelled as `Int` (Qt uses
machine integers far from overflow in all reachable states), Python lists
as `List`, Python `None`-able fields as `Option`, and a raised Python
exception as an `Except.error` result.
-/

namespace SDUX

/-- A Qt `QRect` as used by the source: origin `(x, y)` plus size `(w, h)`. -/
structure Rect where
  x : Int
  y : Int
  w : Int
  h : Int
deriving DecidableEq, Repr

/-- Source constant `PANEL_HEIGHT = 48`. -/
def PANEL_HEIGHT : Int := 48

/-- Source constant `DOCK_WIDTH = 64`. -/
def DOCK_WIDTH : Int := 64

/-- Source constant `WORKSPACE_COUNT = 4`. -/
def WORKSPACE_COUNT : Nat := 4

/-- Fixed title-bar height: `self.titlebar.setFixedHeight(32)` in
`InternalWindow._init_titlebar`. -/
def TITLEBAR_HEIGHT : Int := 32

/-- State of one `InternalWindow` (class `InternalWindow` in the source):
its title, current geometry, maximize flag with the saved pre-maximize
geometry (`self.prev_geometry`), and the transient drag/resize
interaction fields initialised in `__init__`. -/
structure InternalWindow where
  title : String
  geometry : Rect
  is_maximized : Bool
  prev_geometry : Rect
  dragging : Bool
  drag_offset : Option (Int × Int)
  resizing : Bool
  resize_start : Option (Int × Int)
  resize_initial_geom : Option Rect
deriving DecidableEq, Repr

/-- A fresh `InternalWindow(title, ...)`: `is_maximized = False`,
`prev_geometry = QRect()`, `self.resize(640, 360)`, all interaction
fields cleared.  The default origin of an unplaced child widget is
`(0, 0)`. -/
def InternalWindow.init (title : String) : InternalWindow :=
  { title := title
    geometry := ⟨0, 0, 640, 360⟩
    is_maximized := false
    prev_geometry := ⟨0, 0, 0, 0⟩
    dragging := false
    drag_offset := none
    resizing := false
    resize_start := none
    resize_initial_geom := none }

/-- A Qt mouse event as consumed by the handlers: which button, the
widget-local position (`ev.x()`, `ev.y()`) and the global position
(`ev.globalPos()`). -/
structure MouseEvent where
  leftButton : Bool
  localX : Int
  localY : Int
  globalX : Int
  globalY : Int
deriving DecidableEq, Repr

/-- `InternalWindow.mousePressEvent`: on a left-button press in the
title-bar region (`local_y <= titlebar.height()`) start dragging and
record `drag_offset = globalPos - frameGeometry().topLeft()`; else on a
press in the 12×12 bottom-right corner start resizing and record the
anchor (`resize_start`) and `resize_initial_geom`; otherwise fall through
to default handling (no state change modelled here). -/
def InternalWindow.mousePressEvent (w : InternalWindow) (ev : MouseEvent) :
    InternalWindow :=
  if ev.leftButton then
    if ev.localY ≤ TITLEBAR_HEIGHT then
      { w with dragging := true
               drag_offset := some (ev.globalX - w.geometry.x, ev.globalY - w.geometry.y) }
    else if ev.localX ≥ w.geometry.w - 12 ∧ ev.localY ≥ w.geometry.h - 12 then
      { w with resizing := true
               resize_start := some (ev.globalX, ev.globalY)
               resize_initial_geom := some w.geometry }
    else w
  else w

/-- `InternalWindow.mouseMoveEvent`: while dragging, move the window so
its top-left is `globalPos - drag_offset`; while resizing (and the
initial geometry was recorded), set the size to
`(max 200 (w0 + dx), max 100 (h0 + dy))` with the delta taken from the
recorded anchor; otherwise default handling. -/
def InternalWindow.mouseMoveEvent (w : InternalWindow) (ev : MouseEvent) :
    InternalWindow :=
  if w.dragging then
    match w.drag_offset with
    | some off =>
        { w with geometry :=
            { w.geometry with x := ev.globalX - off.1, y := ev.globalY - off.2 } }
    | none => w
  else if w.resizing then
    match w.resize_initial_geom, w.resize_start with
    | some g0, some a =>
        { w with geometry :=
            { w.geometry with
                w := max 200 (g0.w + (ev.globalX - a.1))
                h := max 100 (g0.h + (ev.globalY - a.2)) } }
    | _, _ => w
  else w

/-- `InternalWindow.mouseReleaseEvent`: unconditionally clear both
gesture flags. -/
def InternalWindow.mouseReleaseEvent (w : InternalWindow) : InternalWindow :=
  { w with dragging := false, resizing := false }

/-- `InternalWindow.on_max`: if not maximized, save the current geometry
into `prev_geometry` and fill the parent area inset by the fixed margins
(`setGeometry(10, PANEL_HEIGHT + 10, pw - 20, ph - PANEL_HEIGHT - 20)`),
setting the flag; if already maximized, restore `prev_geometry` and clear
the flag. -/
def InternalWindow.on_max (parent_geom : Rect) (w : InternalWindow) :
    InternalWindow :=
  if !w.is_maximized then
    { w with prev_geometry := w.geometry
             geometry := ⟨10, PANEL_HEIGHT + 10,
                          parent_geom.w - 20, parent_geom.h - PANEL_HEIGHT - 20⟩
             is_maximized := true }
  else
    { w with geometry := w.prev_geometry, is_maximized := false }

/-- State of the `WorkspaceManager`: the configured workspace count
(`self.count`), per-workspace ordered window sequences (the children of
each canvas's layout, identified by window id), and the active index
(`self.current`). -/
structure WorkspaceManager where
  count : Nat
  workspaces : List (List Nat)
  current : Nat
deriving DecidableEq, Repr

/-- `WorkspaceManager.__init__(count)`: `count` empty workspace canvases,
`current = 0`. -/
def WorkspaceManager.init (count : Nat) : WorkspaceManager :=
  { count := count, workspaces := List.replicate count [], current := 0 }

/-- Python list indexing `lst[i]` for a list of length `len`: valid for
`0 ≤ i < len` (plain index) and for `-len ≤ i < 0` (index from the end,
`len + i`); anything else raises `IndexError` (here `none`). -/
def pyIndex (len : Nat) (i : Int) : Option Nat :=
  if 0 ≤ i ∧ i < (len : Int) then some i.toNat
  else if -(len : Int) ≤ i ∧ i < 0 then some (i + len).toNat
  else none

/-- `WorkspaceManager.add_window(window, workspace)`: the target index is
`workspace` if given, else `self.current`; `self.workspaces[idx]` is
looked up with Python indexing semantics (an out-of-range index raises
`IndexError`, modelled as `Except.error`), and the window is appended to
that canvas's layout.  (`window.show()` and `window.focus_me()` are
toolkit visibility/raise effects carried at the shell level.) -/
def WorkspaceManager.add_window (m : WorkspaceManager) (window : Nat)
    (workspace : Option Int) : Except String WorkspaceManager :=
  let idx : Int := workspace.getD (m.current : Int)
  match pyIndex m.workspaces.length idx with
  | none => .error "IndexError"
  | some j => .ok { m with workspaces := m.workspaces.set j ((m.workspaces.getD j []) ++ [window]) }

/-- `WorkspaceManager.switch_to(index)`: `self.current = index % self.count`
(Python `%`, i.e. the representative in `[0, count)` for positive
`count`), then make that stacked page current (a pure visibility
effect). -/
def WorkspaceManager.switch_to (m : WorkspaceManager) (index : Int) :
    WorkspaceManager :=
  { m with current := (index % (m.count : Int)).toNat }

/-- Whole-shell state (`PyShellApp`): the workspace manager, the table of
window entities (indexed by window id), the focus/Z-order ring
`self.windows` (ids in list order, front = index 0), the currently
focused (raised, input-receiving) window set by `focus_me`, the pushed
notifications (title, text), and the three overlay rectangles
(panel, dock, notification tray). -/
structure ShellState where
  wm : WorkspaceManager
  entities : List InternalWindow
  windows : List Nat
  focused : Option Nat
  notifications : List (String × String)
  overlays : Rect × Rect × Rect
deriving DecidableEq, Repr

/-- `PyShellApp.cycle_windows`: if `self.windows` is empty, return;
otherwise `w = self.windows.pop(0)`, `self.windows.append(w)`, then
`w.raise_(); w.focus_me()` — the popped window `w` (now at the back of
the ring) is the one raised and given input focus. -/
def ShellState.cycle_windows (s : ShellState) : ShellState :=
  match s.windows with
  | [] => s
  | w :: rest => { s with windows := rest ++ [w], focused := some w }

/-- Delivery of a mouse-press event to window `i`: the event reaches that
window's `mousePressEvent` only, which updates the window's own
interaction state; no other shell state is touched (the handler calls no
raise or focus operation and never reads `self.windows`). -/
def ShellState.dispatch_press (s : ShellState) (i : Nat) (ev : MouseEvent) :
    ShellState :=
  { s with entities :=
      s.entities.set i ((s.entities.getD i (InternalWindow.init "")).mousePressEvent ev) }

/-- The shell-level effect of calling `self.workspace_manager.switch_to(index)`:
a method of the sub-object `wm`, so every other shell field is untouched. -/
def ShellState.switch_to (s : ShellState) (index : Int) : ShellState :=
  { s with wm := s.wm.switch_to index }

/-- `PyShellApp.reposition_overlays` as a pure function of the primary
screen size: panel at `(0, 0, width, PANEL_HEIGHT)`, dock at
`(8, PANEL_HEIGHT + 8, DOCK_WIDTH, height - PANEL_HEIGHT - 16)`,
notification tray at `(width - 340, PANEL_HEIGHT + 8, 320, 400)`. -/
def reposition_overlays (screenW screenH : Int) : Rect × Rect × Rect :=
  (⟨0, 0, screenW, PANEL_HEIGHT⟩,
   ⟨8, PANEL_HEIGHT + 8, DOCK_WIDTH, screenH - PANEL_HEIGHT - 16⟩,
   ⟨screenW - 340, PANEL_HEIGHT + 8, 320, 400⟩)

/-- The shell-level call of `reposition_overlays`: it only writes the
three overlay rectangles (it calls `setGeometry` on the panel, dock and
notification widgets and nothing else). -/
def ShellState.reposition (s : ShellState) (screenW screenH : Int) : ShellState :=
  { s with overlays := reposition_overlays screenW screenH }

/-- Python `str.lower()` as used by `launch_app` on its `name` argument
(ASCII app-kind names): lowercase every character. -/
def pyLower (s : String) : String := ⟨s.data.map Char.toLower⟩

/-- Outcome of `subprocess.Popen([name])` in the external-launch branch:
either the spawn call returns, or it raises (e.g. `FileNotFoundError`). -/
inductive SpawnResult where
  | ok : SpawnResult
  | raises : SpawnResult
deriving DecidableEq, Repr

/-- One known-kind branch of `launch_app`: create the `InternalWindow`
(new id = next entity slot), connect `window_closed`, add it to the
active workspace via `WorkspaceManager.add_window` (which shows and
focuses it), and append it to the ring `self.windows`.  If `add_window`
raises, the enclosing `try` pushes a "Launch failed" notification and
returns `None`. -/
def ShellState.launch_known (s : ShellState) (title : String) :
    Option Nat × ShellState :=
  let id := s.entities.length
  let ents := s.entities ++ [InternalWindow.init title]
  match s.wm.add_window id none with
  | .ok wm =>
      (some id, { s with wm := wm, entities := ents,
                         windows := s.windows ++ [id], focused := some id })
  | .error e =>
      (none, { s with entities := ents,
                      notifications := s.notifications ++ [("Launch failed", e)] })

/-- `PyShellApp.launch_app(name)`: lowercase the name; the four known
kinds ("terminal", "editor", "browser", "files") create an internal
window; any other name attempts `subprocess.Popen([name])` (with the
lowered name) and returns `None`, and if that spawn raises, the handler
pushes a "Launch failed" notification and returns `None`. -/
def ShellState.launch_app (s : ShellState) (spawn : SpawnResult) (name : String) :
    Option Nat × ShellState :=
  let n := pyLower name
  if n = "terminal" then s.launch_known "Terminal"
  else if n = "editor" then s.launch_known "Editor"
  else if n = "browser" then s.launch_known "Browser"
  else if n = "files" then s.launch_known "Files"
  else
    match spawn with
    | .ok => (none, s)
    | .raises => (none, { s with notifications := s.notifications ++ [("Launch failed", n)] })

/-- A shell state whose ring holds the given window ids (one default
entity per id slot), with a fresh 4-workspace manager that has every
listed window in workspace 0, used for concrete evaluations. -/
def mkShell (ring : List Nat) : ShellState :=
  { wm := { count := 4, workspaces := [ring, [], [], []], current := 0 }
    entities := ring.map fun _ => InternalWindow.init "Window"
    windows := ring
    focused := ring.getLast?
    notifications := []
    overlays := reposition_overlays 1920 1080 }

/-- A window placed at `(100, 100)` with size `640 × 360`, the geometry
of the spec scenarios. -/
def w100 : InternalWindow :=
  { InternalWindow.init "Window" with geometry := ⟨100, 100, 640, 360⟩ }

/-- Left-button press on `w100`'s bottom-right resize corner: local
`(635, 355)`, global `(735, 455)`. -/
def press6 : MouseEvent := ⟨true, 635, 355, 735, 455⟩

/-- Pointer move to global `(-165, -445)`: a cumulative delta of
`(-900, -900)` from the anchor of `press6`. -/
def move6 : MouseEvent := ⟨true, 635, 355, -165, -445⟩

/-- Left-button press on `w100`'s title bar: local `(5, 10)`, global
`(105, 110)`. -/
def press7 : MouseEvent := ⟨true, 5, 10, 105, 110⟩

/-- Pointer move to global `(155, 80)`: a delta of `(50, -30)` from the
anchor of `press7`. -/
def move7 : MouseEvent := ⟨true, 5, 10, 155, 80⟩

lemma cycle_windows_ring (s : ShellState) :
    s.cycle_windows.windows = s.windows.rotate 1 := by
  cases hw : s.windows with
  | nil => simp [ShellState.cycle_windows, hw]
  | cons a l => simp [ShellState.cycle_windows, hw, List.rotate_cons_succ]

lemma cycle_windows_iterate (n : Nat) (s : ShellState) :
    (ShellState.cycle_windows^[n] s).windows = s.windows.rotate n := by
  induction n generalizing s with
  | zero => simp
  | succ n ih =>
      rw [Function.iterate_succ_apply, ih, cycle_windows_ring,
        List.rotate_rotate, Nat.add_comm]

/-- C4 (confirmed): for every integer index `i`, `switch_to i` sets the
active index to `i mod N` and changes nothing else — no workspace's
window sequence (Z-order), no window entity's bounds, and no membership
or order of the Focus/Z-Order Ring; only which container is visible. -/
theorem C4_switch_to_mod_and_nothing_else (s : ShellState) (i : Int)
    (_h : 0 < s.wm.count) :
    (s.switch_to i).wm.current = (i % (s.wm.count : Int)).toNat ∧
    (s.switch_to i).wm.workspaces = s.wm.workspaces ∧
    (s.switch_to i).wm.count = s.wm.count ∧
    (s.switch_to i).entities = s.entities ∧
    (s.switch_to i).windows = s.windows ∧
    (s.switch_to i).focused = s.focused :=
  ⟨rfl, rfl, rfl, rfl, rfl, rfl⟩

/-- Witness for C4: `switch_to 7` on the 4-workspace shell yields active
index `3` (the modulo wrap of the spec scenario) and leaves all other
state equal. -/
theorem C4_witness :
    0 < (mkShell [0, 1, 2]).wm.count ∧
    (((mkShell [0, 1, 2]).switch_to 7).wm.current =
        ((7 : Int) % (((mkShell [0, 1, 2]).wm.count : Nat) : Int)).toNat ∧
      ((mkShell [0, 1, 2]).switch_to 7).wm.workspaces = (mkShell [0, 1, 2]).wm.workspaces ∧
      ((mkShell [0, 1, 2]).switch_to 7).wm.count = (mkShell [0, 1, 2]).wm.count ∧
      ((mkShell [0, 1, 2]).switch_to 7).entities = (mkShell [0, 1, 2]).entities ∧
      ((mkShell [0, 1, 2]).switch_to 7).windows = (mkShell [0, 1, 2]).windows ∧
      ((mkShell [0, 1, 2]).switch_to 7).focused = (mkShell [0, 1, 2]).focused) ∧
    ((mkShell [0, 1, 2]).switch_to 7).wm.current = 3 :=
  ⟨by decide, C4_switch_to_mod_and_nothing_else (mkShell [0, 1, 2]) 7 (by decide), by decide⟩

/-- C5 (confirmed): with no intervening resize, toggling maximize twice
is a round trip — the first `on_max` saves the current bounds into
`prev_geometry` and sets `is_maximized`; the second restores the bounds
exactly and clears the flag. -/
theorem C5_on_max_round_trip (pg : Rect) (w : InternalWindow)
    (h : w.is_maximized = false) :
    (w.on_max pg).is_maximized = true ∧
    (w.on_max pg).prev_geometry = w.geometry ∧
    ((w.on_max pg).on_max pg).is_maximized = false ∧
    ((w.on_max pg).on_max pg).geometry = w.geometry := by
  simp [InternalWindow.on_max, h]

/-- Witness for C5: a freshly created terminal window (not maximized)
with a `1920 × 1080` parent round-trips through two `on_max` calls. -/
theorem C5_witness :
    (InternalWindow.init "Terminal").is_maximized = false ∧
    (((InternalWindow.init "Terminal").on_max ⟨0, 0, 1920, 1080⟩).is_maximized = true ∧
      ((InternalWindow.init "Terminal").on_max ⟨0, 0, 1920, 1080⟩).prev_geometry =
        (InternalWindow.init "Terminal").geometry ∧
      (((InternalWindow.init "Terminal").on_max ⟨0, 0, 1920, 1080⟩).on_max
          ⟨0, 0, 1920, 1080⟩).is_maximized = false ∧
      (((InternalWindow.init "Terminal").on_max ⟨0, 0, 1920, 1080⟩).on_max
          ⟨0, 0, 1920, 1080⟩).geometry = (InternalWindow.init "Terminal").geometry) :=
  ⟨rfl, C5_on_max_round_trip ⟨0, 0, 1920, 1080⟩ (InternalWindow.init "Terminal") rfl⟩

/-- C9 (confirmed): the overlay recompute is a pure function of the
display size and the constants `PANEL_HEIGHT = 48`, `DOCK_WIDTH = 64`,
margin `8`: the panel spans the full width at the top with height 48,
the dock is 64 wide with height `displayHeight - 48 - 2*8` (656 for a
720-high display), and repositioning changes no window's geometry, no
workspace contents and no ring state. -/
theorem C9_overlay_layout (s : ShellState) (dw dh : Int) :
    (s.reposition dw dh).overlays.1 = ⟨0, 0, dw, PANEL_HEIGHT⟩ ∧
    (s.reposition dw dh).overlays.2.1.w = DOCK_WIDTH ∧
    (s.reposition dw dh).overlays.2.1.h = dh - PANEL_HEIGHT - 2 * 8 ∧
    (s.reposition dw dh).entities = s.entities ∧
    (s.reposition dw dh).wm = s.wm ∧
    (s.reposition dw dh).windows = s.windows ∧
    (s.reposition dw dh).focused = s.focused ∧
    (reposition_overlays 1280 720).2.1.h = 656 := by
  refine ⟨rfl, rfl, ?_, rfl, rfl, rfl, rfl, by decide⟩
  show dh - PANEL_HEIGHT - 16 = dh - PANEL_HEIGHT - 2 * 8
  ring

/-- C6 (confirmed): a resize gesture started by a left press in the
12×12 bottom-right corner (and outside the title bar), followed by a
pointer move, yields bounds
`(x, y, max 200 (w + dx), max 100 (h + dy))` for initial bounds
`(x, y, w, h)` and pointer delta `(dx, dy)` from the anchor: the origin
is unchanged and width/height never drop below `200`/`100`. -/
theorem C6_resize_clamps_to_min_size (w : InternalWindow) (press move : MouseEvent)
    (hbtn : press.leftButton = true)
    (hbar : TITLEBAR_HEIGHT < press.localY)
    (hcx : w.geometry.w - 12 ≤ press.localX)
    (hcy : w.geometry.h - 12 ≤ press.localY)
    (hd : w.dragging = false) :
    ((w.mousePressEvent press).mouseMoveEvent move).geometry =
      ⟨w.geometry.x, w.geometry.y,
       max 200 (w.geometry.w + (move.globalX - press.globalX)),
       max 100 (w.geometry.h + (move.globalY - press.globalY))⟩ ∧
    200 ≤ ((w.mousePressEvent press).mouseMoveEvent move).geometry.w ∧
    100 ≤ ((w.mousePressEvent press).mouseMoveEvent move).geometry.h := by
  have hw' : w.mousePressEvent press =
      { w with resizing := true
               resize_start := some (press.globalX, press.globalY)
               resize_initial_geom := some w.geometry } := by
    simp [InternalWindow.mousePressEvent, hbtn, not_le.mpr hbar, hcx, hcy]
  rw [hw']
  refine ⟨?_, ?_, ?_⟩ <;>
    simp [InternalWindow.mouseMoveEvent, hd, le_max_left]

/-- Witness for C6: resizing the `(100, 100, 640, 360)` window by a
pointer delta of `(-900, -900)` clamps the result to
`(100, 100, 200, 100)`. -/
theorem C6_witness :
    (press6.leftButton = true ∧ TITLEBAR_HEIGHT < press6.localY ∧
      w100.geometry.w - 12 ≤ press6.localX ∧
      w100.geometry.h - 12 ≤ press6.localY ∧ w100.dragging = false) ∧
    (((w100.mousePressEvent press6).mouseMoveEvent move6).geometry =
        ⟨w100.geometry.x, w100.geometry.y,
         max 200 (w100.geometry.w + (move6.globalX - press6.globalX)),
         max 100 (w100.geometry.h + (move6.globalY - press6.globalY))⟩ ∧
      200 ≤ ((w100.mousePressEvent press6).mouseMoveEvent move6).geometry.w ∧
      100 ≤ ((w100.mousePressEvent press6).mouseMoveEvent move6).geometry.h) ∧
    ((w100.mousePressEvent press6).mouseMoveEvent move6).geometry = ⟨100, 100, 200, 100⟩ :=
  ⟨by decide,
   C6_resize_clamps_to_min_size w100 press6 move6 (by decide) (by decide)
     (by decide) (by decide) (by decide),
   by decide⟩

/-- C7 (confirmed): a drag gesture started by a left press in the
title-bar region, followed by a pointer move, sets the bounds origin to
`initial origin + (pointer - anchor)` with width and height unchanged
and no clamping to the screen. -/
theorem C7_drag_moves_origin (w : InternalWindow) (press move : MouseEvent)
    (hbtn : press.leftButton = true)
    (hbar : press.localY ≤ TITLEBAR_HEIGHT) :
    ((w.mousePressEvent press).mouseMoveEvent move).geometry.x =
      w.geometry.x + (move.globalX - press.globalX) ∧
    ((w.mousePressEvent press).mouseMoveEvent move).geometry.y =
      w.geometry.y + (move.globalY - press.globalY) ∧
    ((w.mousePressEvent press).mouseMoveEvent move).geometry.w = w.geometry.w ∧
    ((w.mousePressEvent press).mouseMoveEvent move).geometry.h = w.geometry.h := by
  have hw' : w.mousePressEvent press =
      { w with dragging := true
               drag_offset := some (press.globalX - w.geometry.x,
                                    press.globalY - w.geometry.y) } := by
    simp [InternalWindow.mousePressEvent, hbtn, hbar]
  rw [hw']
  refine ⟨?_, ?_, ?_, ?_⟩ <;> simp [InternalWindow.mouseMoveEvent] <;> ring

/-- Witness for C7: dragging the `(100, 100, 640, 360)` window by a
pointer delta of `(50, -30)` yields bounds `(150, 70, 640, 360)`. -/
theorem C7_witness :
    (press7.leftButton = true ∧ press7.localY ≤ TITLEBAR_HEIGHT) ∧
    (((w100.mousePressEvent press7).mouseMoveEvent move7).geometry.x =
        w100.geometry.x + (move7.globalX - press7.globalX) ∧
      ((w100.mousePressEvent press7).mouseMoveEvent move7).geometry.y =
        w100.geometry.y + (move7.globalY - press7.globalY) ∧
      ((w100.mousePressEvent press7).mouseMoveEvent move7).geometry.w = w100.geometry.w ∧
      ((w100.mousePressEvent press7).mouseMoveEvent move7).geometry.h = w100.geometry.h) ∧
    ((w100.mousePressEvent press7).mouseMoveEvent move7).geometry = ⟨150, 70, 640, 360⟩ :=
  ⟨by decide, C7_drag_moves_origin w100 press7 move7 (by decide) (by decide), by decide⟩

/-- C8 (confirmed): `cycle_windows` on an empty ring is a no-op, and on
a ring of `n` open windows applying it exactly `n` times returns the
ring to its original order (each call rotates the front handle to the
back). -/
theorem C8_cycle_law (s : ShellState) (n : Nat) (h : n = s.windows.length) :
    (s.windows = [] → s.cycle_windows = s) ∧
    (ShellState.cycle_windows^[n] s).windows = s.windows := by
  constructor
  · intro he
    simp [ShellState.cycle_windows, he]
  · rw [cycle_windows_iterate, h, List.rotate_length]

/-- Witness for C8: with three open windows the ring after three cycles
equals the ring before, so in particular the front handle is restored. -/
theorem C8_witness :
    3 = (mkShell [0, 1, 2]).windows.length ∧
    (((mkShell [0, 1, 2]).windows = [] →
        (mkShell [0, 1, 2]).cycle_windows = mkShell [0, 1, 2]) ∧
      (ShellState.cycle_windows^[3] (mkShell [0, 1, 2])).windows =
        (mkShell [0, 1, 2]).windows) ∧
    (ShellState.cycle_windows^[3] (mkShell [0, 1, 2])).windows.head? =
      (mkShell [0, 1, 2]).windows.head? :=
  ⟨rfl, C8_cycle_law (mkShell [0, 1, 2]) 3 rfl, by decide⟩

/-- C1 counterexample: on the two-window ring `[0, 1]`, `cycle_windows`
leaves window `1` at the front but raises and focuses window `0` (the
popped front, now at the back) — so the window at the front of the ring
after the call is NOT the one that was raised and marked
input-receiving, refuting the claim as stated. -/
theorem C1_counterexample :
    (mkShell [0, 1]).cycle_windows.windows.head? = some 1 ∧
    (mkShell [0, 1]).cycle_windows.focused = some 0 ∧
    (mkShell [0, 1]).cycle_windows.focused ≠
      (mkShell [0, 1]).cycle_windows.windows.head? := by
  decide

/-- C1 (corrected): for every non-empty ring, `cycle_windows` removes
the front handle and appends it to the back, then raises and focuses
that same removed handle — the old front, which now sits at the BACK of
the ring — rather than the new front. -/
theorem C1_cycle_focuses_popped_front (s : ShellState) (w : Nat) (rest : List Nat)
    (h : s.windows = w :: rest) :
    s.cycle_windows.windows = rest ++ [w] ∧
    s.cycle_windows.focused = some w ∧
    s.cycle_windows.windows.getLast? = some w := by
  refine ⟨?_, ?_, ?_⟩ <;>
    simp [ShellState.cycle_windows, h, List.getLast?_concat]

/-- Witness for C1: on the three-window ring `[0, 1, 2]` one cycle
yields ring `[1, 2, 0]` with window `0` (now at the back) focused. -/
theorem C1_witness :
    (mkShell [0, 1, 2]).windows = 0 :: [1, 2] ∧
    ((mkShell [0, 1, 2]).cycle_windows.windows = [1, 2] ++ [0] ∧
      (mkShell [0, 1, 2]).cycle_windows.focused = some 0 ∧
      (mkShell [0, 1, 2]).cycle_windows.windows.getLast? = some 0) :=
  ⟨rfl, C1_cycle_focuses_popped_front (mkShell [0, 1, 2]) 0 [1, 2] rfl⟩

/-- C2 counterexample: `switch_to 7` on a fresh 4-workspace manager is
not a no-op and is not reported as a failure — it silently mutates the
active index from `0` to `3`, refuting the claim as stated. -/
theorem C2_counterexample :
    (WorkspaceManager.init 4).current = 0 ∧
    ((WorkspaceManager.init 4).switch_to 7).current = 3 ∧
    ((WorkspaceManager.init 4).switch_to 7).current ≠
      (WorkspaceManager.init 4).current := by
  decide

/-- C2 (corrected): `switch_to` never fails — for every integer index it
sets the active index to `index mod N`, mutating it even when the index
is out of `[0, N)`; `add_window` fails (an `IndexError`, adding the
window to no workspace) only for a target index outside `[-N, N)`, while
a target index in `[-N, -1]` silently appends the window to workspace
`N + targetIndex` by Python's negative indexing. -/
theorem C2_switch_wraps_add_window_pyindex (m : WorkspaceManager) (win : Nat)
    (idx : Int) (hc : 0 < m.count) (hlen : m.workspaces.length = m.count) :
    (m.switch_to idx).current = (idx % (m.count : Int)).toNat ∧
    ((idx < -(m.count : Int) ∨ (m.count : Int) ≤ idx) →
      m.add_window win (some idx) = .error "IndexError") ∧
    ((-(m.count : Int) ≤ idx ∧ idx < 0) →
      m.add_window win (some idx) =
        .ok { m with workspaces := (m.workspaces.set (idx + m.count).toNat
                ((m.workspaces.getD (idx + m.count).toNat []) ++ [win])) }) := by
  refine ⟨rfl, ?_, ?_⟩
  · intro hout
    have h1 : ¬ (0 ≤ idx ∧ idx < (m.workspaces.length : Int)) := by omega
    have h2 : ¬ (-(m.workspaces.length : Int) ≤ idx ∧ idx < 0) := by omega
    have hnone : pyIndex m.workspaces.length idx = none := by
      simp [pyIndex, h1, h2]
    simp [WorkspaceManager.add_window, hnone]
  · intro hin
    have h1 : ¬ (0 ≤ idx ∧ idx < (m.workspaces.length : Int)) := by omega
    have h2 : -(m.workspaces.length : Int) ≤ idx ∧ idx < 0 := by omega
    have hsome : pyIndex m.workspaces.length idx =
        some (idx + m.workspaces.length).toNat := by
      simp [pyIndex, h1, h2]
    have hcast : ((m.workspaces.length : Int)) = (m.count : Int) := by
      exact_mod_cast congrArg Nat.cast hlen
    simp [WorkspaceManager.add_window, hsome, hcast]

/-- Witness for C2 (corrected): on a fresh 4-workspace manager,
`switch_to (-1)` wraps to index `3`, and `add_window` with target index
`-1` appends the window to workspace `3`. -/
theorem C2_witness :
    0 < (WorkspaceManager.init 4).count ∧
    (WorkspaceManager.init 4).workspaces.length = (WorkspaceManager.init 4).count ∧
    (((WorkspaceManager.init 4).switch_to (-1)).current =
        ((-1 : Int) % (((WorkspaceManager.init 4).count : Nat) : Int)).toNat ∧
      (((-1 : Int) < -(((WorkspaceManager.init 4).count : Nat) : Int) ∨
          (((WorkspaceManager.init 4).count : Nat) : Int) ≤ (-1 : Int)) →
        (WorkspaceManager.init 4).add_window 9 (some (-1)) = .error "IndexError") ∧
      ((-(((WorkspaceManager.init 4).count : Nat) : Int) ≤ (-1 : Int) ∧ (-1 : Int) < 0) →
        (WorkspaceManager.init 4).add_window 9 (some (-1)) =
          .ok { WorkspaceManager.init 4 with
                  workspaces := ((WorkspaceManager.init 4).workspaces.set
                    ((-1 + (WorkspaceManager.init 4).count : Int)).toNat
                    (((WorkspaceManager.init 4).workspaces.getD
                        ((-1 + (WorkspaceManager.init 4).count : Int)).toNat []) ++ [9])) })) :=
  ⟨by decide, by decide,
   C2_switch_wraps_add_window_pyindex (WorkspaceManager.init 4) 9 (-1)
     (by decide) (by decide)⟩

/-- C3 counterexample: a left press in the title bar of window `1` (not
at the front of the two-window ring `[0, 1]`) starts a drag gesture, yet
the ring is unchanged: its front is still window `0`, not the pressed
window — starting the interaction did not raise the window, refuting the
claim as stated. -/
theorem C3_counterexample :
    ((((mkShell [0, 1]).dispatch_press 1 press7).entities.getD 1
        (InternalWindow.init "")).dragging = true) ∧
    ((mkShell [0, 1]).dispatch_press 1 press7).windows.head? = some 0 ∧
    ((mkShell [0, 1]).dispatch_press 1 press7).windows.head? ≠ some 1 := by
  decide

/-- C3 (corrected): delivering a pointer-press to any window — including
one that starts a drag or resize gesture — only mutates that window's
own interaction state; it never changes the Focus/Z-Order Ring, the
focused (input-receiving) window, or the workspace manager.  The handler
contains no raise or focus call. -/
theorem C3_press_never_raises (s : ShellState) (i : Nat) (ev : MouseEvent) :
    (s.dispatch_press i ev).windows = s.windows ∧
    (s.dispatch_press i ev).focused = s.focused ∧
    (s.dispatch_press i ev).wm = s.wm ∧
    (s.dispatch_press i ev).notifications = s.notifications :=
  ⟨rfl, rfl, rfl, rfl⟩

/-- C10 (confirmed): for any app-kind name whose lowercase form is not
one of "terminal", "editor", "browser", "files", `launch_app` creates no
internal window and leaves the ring, the entities, the workspace
manager and the focus unchanged; it returns `none`, and when the
external spawn raises, it additionally pushes a "Launch failed"
notification (when the spawn succeeds the state is untouched). -/
theorem C10_launch_unknown_kind (s : ShellState) (spawn : SpawnResult) (name : String)
    (h : pyLower name ∉ (["terminal", "editor", "browser", "files"] : List String)) :
    (s.launch_app spawn name).1 = none ∧
    (s.launch_app spawn name).2.entities = s.entities ∧
    (s.launch_app spawn name).2.windows = s.windows ∧
    (s.launch_app spawn name).2.wm = s.wm ∧
    (s.launch_app spawn name).2.focused = s.focused ∧
    (spawn = .ok → (s.launch_app spawn name).2 = s) ∧
    (spawn = .raises →
      (s.launch_app spawn name).2.notifications =
        s.notifications ++ [("Launch failed", pyLower name)]) := by
  have h4 : ¬ pyLower name = "terminal" ∧ ¬ pyLower name = "editor" ∧
      ¬ pyLower name = "browser" ∧ ¬ pyLower name = "files" := by
    simpa using h
  obtain ⟨h1, h2, h3, h4⟩ := h4
  cases spawn <;>
    simp [ShellState.launch_app, h1, h2, h3, h4]

/-- Witness for C10: launching "Calculator" (unknown kind) with a
failing spawn returns `none`, changes no window state and pushes the
launch-failure notification. -/
theorem C10_witness :
    pyLower "Calculator" ∉ (["terminal", "editor", "browser", "files"] : List String) ∧
    (((mkShell [0]).launch_app .raises "Calculator").1 = none ∧
      ((mkShell [0]).launch_app .raises "Calculator").2.entities = (mkShell [0]).entities ∧
      ((mkShell [0]).launch_app .raises "Calculator").2.windows = (mkShell [0]).windows ∧
      ((mkShell [0]).launch_app .raises "Calculator").2.wm = (mkShell [0]).wm ∧
      ((mkShell [0]).launch_app .raises "Calculator").2.focused = (mkShell [0]).focused ∧
      (SpawnResult.raises = .ok → ((mkShell [0]).launch_app .raises "Calculator").2 = mkShell [0]) ∧
      (SpawnResult.raises = .raises →
        ((mkShell [0]).launch_app .raises "Calculator").2.notifications =
          (mkShell [0]).notifications ++ [("Launch failed", pyLower "Calculator")])) :=
  ⟨by decide, C10_launch_unknown_kind (mkShell [0]) .raises "Calculator" (by decide)⟩

end SDUX
